import Mathlib

/-!
Shallow embedding of the nuclei scanner engine glue code:
  - internal/runner/runner.go   (Runner.New, RunEnumeration, executeTemplatesInput,
                                 setupPDCPUpload, displayExecutionInfo, SaveResumeConfig)
  - lib/sdk.go                  (NucleiEngine.ExecuteWithCallback)
  - pkg/core/engine.go          (Engine.GetWorkPool, Engine.SetExecuterOptions)
  - v2/internal/runner/options.go (ParseOptions headless concurrency adjustment)

External collaborators (the loader store contents, the interactsh client result,
credential lookups, file I/O results) are passed in as explicit values, so every
branch of the embedded control flow is the branch the Go source takes on the
same data.
-/

namespace Nuclei

/-- A loaded template; only identity matters for the engine glue. -/
structure Template where
  path : String
  deriving DecidableEq, Repr

/-- `loader.Store` as seen through `store.Templates()` and `store.Workflows()`. -/
structure Store where
  templates : List Template
  workflows : List Template
  deriving DecidableEq, Repr

/-- What `Engine.ExecuteScanWithOpts` receives when the glue code invokes it:
the final template list and the `DisableClustering` flag (third argument). -/
structure ScanInvocation where
  finalTemplates : List Template
  disableClustering : Bool
  deriving DecidableEq, Repr

/-- `Runner.executeTemplatesInput` (runner.go lines 614-639): concatenates
`store.Templates()` and `store.Workflows()`, errors on an empty result, errors
on a missing input provider, otherwise calls
`engine.ExecuteScanWithOpts(finalTemplates, r.inputProvider, r.options.DisableClustering)`. -/
def executeTemplatesInput (store : Store) (hasInputProvider : Bool)
    (disableClustering : Bool) : Except String ScanInvocation :=
  let finalTemplates : List Template := [] ++ store.templates ++ store.workflows
  if finalTemplates.isEmpty then
    .error "no templates provided for scan"
  else if !hasInputProvider then
    .error "no input provider found"
  else
    .ok { finalTemplates := finalTemplates, disableClustering := disableClustering }

/-- `NucleiEngine.ExecuteWithCallback` (sdk.go lines 194-216): returns
`ErrNoTemplatesAvailable` when both template and workflow lists are empty,
`ErrNoTargetsAvailable` when the input provider holds no targets, and otherwise
invokes `e.engine.ExecuteScanWithOpts(e.store.Templates(), e.inputProvider, false)`
and returns nil. The returned invocation records what was passed to the engine. -/
def ExecuteWithCallback (store : Store) (targetCount : Nat) :
    Except String ScanInvocation :=
  if store.templates.length == 0 && store.workflows.length == 0 then
    .error "No templates available"
  else if targetCount == 0 then
    .error "No targets available"
  else
    .ok { finalTemplates := store.templates, disableClustering := false }

/-- The three loader statistics counters consulted by the validate branch of
`RunEnumeration` (`templates.SyntaxErrorStats`, `templates.SyntaxWarningStats`,
`templates.RuntimeWarningsStats`). -/
structure ValidationStats where
  syntaxErrors : Nat
  syntaxWarnings : Nat
  runtimeWarnings : Nat
  deriving DecidableEq, Repr

/-- The environment `RunEnumeration` runs in: option flags plus the outcomes of
the external collaborator calls it makes (template validation, the automatic
scan service, the engine scan itself, and `interactsh.Close()`). -/
structure RunEnumerationInput where
  validate : Bool
  validateTemplatesErr : Option String
  stats : ValidationStats
  automaticScan : Bool
  smartScanResult : Except String Bool
  store : Store
  hasInputProvider : Bool
  disableClustering : Bool
  scanFoundAny : Bool
  interactshPresent : Bool
  interactshMatched : Bool
  deriving Repr

/-- `Runner.runStandardEnumeration` (runner.go lines 334-340): dispatches to
`executeSmartWorkflowInput` when `-automatic-scan` is set, otherwise to
`executeTemplatesInput`; on success the boolean is the scan's found-any result. -/
def runStandardEnumeration (inp : RunEnumerationInput) : Except String Bool :=
  if inp.automaticScan then
    inp.smartScanResult
  else
    match executeTemplatesInput inp.store inp.hasInputProvider inp.disableClustering with
    | .error e => .error e
    | .ok _ => .ok inp.scanFoundAny

/-- Observable outcome of `RunEnumeration`: the returned error, whether the
engine scan phase ran, the final found-any value (None when the scan phase did
not produce a result), and whether `interactsh.Close()` was called. -/
structure RunEnumerationResult where
  err : Option String
  scanExecuted : Bool
  foundAny : Option Bool
  interactshClosed : Bool
  deriving DecidableEq, Repr

/-- `Runner.RunEnumeration` (runner.go lines 404-580), restricted to the control
flow the loaded store and flags determine. The `-validate` branch (lines
491-501) returns before `store.Load()` and any execution: it propagates a
`store.ValidateTemplates()` error, then returns nil exactly when the three
statistics counters are all zero, else the fixed validation-failure error.
Otherwise enumeration runs (lines 550-564); afterwards, when the interactsh
client is non-nil, `Close()` is called and a reported late match performs
`results.CompareAndSwap(false, true)` on the atomic found-any result. -/
def RunEnumeration (inp : RunEnumerationInput) : RunEnumerationResult :=
  if inp.validate then
    match inp.validateTemplatesErr with
    | some e => { err := some e, scanExecuted := false, foundAny := none, interactshClosed := false }
    | none =>
      if inp.stats.syntaxErrors == 0 && inp.stats.syntaxWarnings == 0
          && inp.stats.runtimeWarnings == 0 then
        { err := none, scanExecuted := false, foundAny := none, interactshClosed := false }
      else
        { err := some "encountered errors while performing template validation",
          scanExecuted := false, foundAny := none, interactshClosed := false }
  else
    match runStandardEnumeration inp with
    | .error e =>
      { err := some e, scanExecuted := false, foundAny := none,
        interactshClosed := inp.interactshPresent }
    | .ok found =>
      let results := found
      let results :=
        if inp.interactshPresent then
          if inp.interactshMatched then
            -- CompareAndSwap(false, true): swap to true when currently false
            if results = false then true else results
          else results
        else results
      { err := none, scanExecuted := true, foundAny := some results,
        interactshClosed := inp.interactshPresent }

/-! ## CruiseControl profiles and the work pool (pkg/core/engine.go) -/

/-- Modelled from the spec: the `concurrency` part of a cruise-control profile,
`{hosts, templates, payloads}` (the `pkg/cruisecontrol` package itself is not in
the surveyed sources; engine.go reads `.Concurrency.Hosts` / `.Concurrency.Templates`). -/
structure Concurrency where
  Hosts : Nat
  Templates : Nat
  Payloads : Nat
  deriving DecidableEq, Repr

/-- Modelled from the spec: one cruise-control profile,
`{concurrency, durations: {timeout, retry_backoff}, rate: {requests_per_second, burst}}`;
only the concurrency block is consulted by the embedded engine code. -/
structure TypeProfile where
  Concurrency : Concurrency
  deriving DecidableEq, Repr

/-- Modelled from the spec: the process-wide cruise-control policy with its two
profiles, *standard* and *headless*, accessed through `Standard()` / `Headless()`. -/
structure CruiseControl where
  Standard : TypeProfile
  Headless : TypeProfile
  deriving DecidableEq, Repr

/-- `core.WorkPoolConfig`: the four bounds `Engine.GetWorkPool` fills in. -/
structure WorkPoolConfig where
  InputConcurrency : Nat
  TypeConcurrency : Nat
  HeadlessInputConcurrency : Nat
  HeadlessTypeConcurrency : Nat
  deriving DecidableEq, Repr

/-- `core.WorkPool` as far as engine.go observes it: the configuration it was
built from. -/
structure WorkPool where
  config : WorkPoolConfig
  deriving DecidableEq, Repr

/-- `core.NewWorkPool`: builds a pool from its configuration. -/
def NewWorkPool (config : WorkPoolConfig) : WorkPool :=
  { config := config }

/-- The slice of `protocols.ExecutorOptions` the engine glue reads. -/
structure ExecutorOptions where
  CruiseControl : CruiseControl
  deriving DecidableEq, Repr

/-- `core.Engine` state: executer options and the work pool, both unset until
`SetExecuterOptions` runs (Go zero values). -/
structure Engine where
  executerOpts : Option ExecutorOptions
  workPool : Option WorkPool
  deriving DecidableEq, Repr

/-- `core.New` (engine.go lines 25-30): a fresh engine, no options or pool yet. -/
def Engine.new : Engine :=
  { executerOpts := none, workPool := none }

/-- `Engine.GetWorkPool` (engine.go lines 33-40): builds the pool configuration
from the standard and headless cruise-control profiles. -/
def Engine.GetWorkPool (opts : ExecutorOptions) : WorkPool :=
  NewWorkPool
    { InputConcurrency := opts.CruiseControl.Standard.Concurrency.Hosts
      TypeConcurrency := opts.CruiseControl.Standard.Concurrency.Templates
      HeadlessInputConcurrency := opts.CruiseControl.Headless.Concurrency.Hosts
      HeadlessTypeConcurrency := opts.CruiseControl.Headless.Concurrency.Templates }

/-- `Engine.SetExecuterOptions` (engine.go lines 44-47): stores the options and
installs the work pool built by `GetWorkPool`. -/
def Engine.SetExecuterOptions (e : Engine) (opts : ExecutorOptions) : Engine :=
  { e with executerOpts := some opts, workPool := some (Engine.GetWorkPool opts) }

/-! ## Runner.New: interactsh client creation (runner.go lines 320-331) -/

/-- The interactsh client, opaque to the runner glue. -/
structure InteractshClient where
  serverURL : String
  deriving DecidableEq, Repr

/-- A log line emitted through gologger: severity tag plus message. -/
inductive LogLine where
  | info (msg : String)
  | warn (msg : String)
  | err (msg : String)
  deriving DecidableEq, Repr

/-- The slice of `Runner` state these claims observe. -/
structure Runner where
  interactsh : Option InteractshClient
  deriving DecidableEq, Repr

/-- Final phase of `Runner.New` (runner.go lines 320-331): `interactsh.New(opts)`
failure is logged and leaves `runner.interactsh` nil; in both cases `New`
returns `(runner, nil)`. The pair carries the `New` return value and the log
lines this phase emits. -/
def newInteractshPhase (r : Runner) (clientResult : Except String InteractshClient) :
    Except String Runner × List LogLine :=
  match clientResult with
  | .error e =>
    (.ok r, [.err ("Could not create interactsh client: " ++ e)])
  | .ok client =>
    (.ok { r with interactsh := some client }, [])

/-! ## setupPDCPUpload (runner.go lines 372-402) -/

/-- PDCP cloud credentials, opaque to the glue code. -/
structure PDCPCreds where
  apiKey : String
  deriving DecidableEq, Repr

/-- The PDCP upload writer; records the scan id when `SetScanID` is called. -/
structure UploadWriter where
  scanID : String
  deriving DecidableEq, Repr

/-- An output writer: either the original standard writer or the multi-writer
wrapping it together with the upload writer (`output.NewMultiWriter`). -/
inductive OutWriter where
  | base
  | multi (inner : OutWriter) (upload : UploadWriter)
  deriving DecidableEq, Repr

/-- Inputs to `setupPDCPUpload`: the relevant options fields, the global
`EnableCloudUpload` flag, and the outcomes of the two external calls
(`GetCreds` and `pdcp.NewUploadWriter`). -/
structure PDCPInput where
  ScanID : String
  EnableCloudUploadOpt : Bool
  EnableCloudUploadGlobal : Bool
  credsResult : Except String PDCPCreds
  uploadWriterResult : Except String UploadWriter
  deriving Repr

/-- Outcome of `setupPDCPUpload`: the writer it returns, the recorded
`pdcpUploadErrMsg` (empty when none was set), and the possibly-updated
`options.EnableCloudUpload`. -/
structure PDCPResult where
  writer : OutWriter
  pdcpUploadErrMsg : String
  EnableCloudUpload : Bool
  deriving DecidableEq, Repr

/-- `Runner.setupPDCPUpload` (runner.go lines 372-402): a non-empty `ScanID`
turns on `EnableCloudUpload`; when upload is disabled, credentials fail, or the
upload writer cannot be created, the original writer is returned with only a
warning message recorded; otherwise the writer is wrapped in a multi-writer
whose upload writer carries the scan id when one was given. -/
def setupPDCPUpload (inp : PDCPInput) (writer : OutWriter) : PDCPResult :=
  let enable := if inp.ScanID != "" then true else inp.EnableCloudUploadOpt
  if !(enable || inp.EnableCloudUploadGlobal) then
    { writer := writer
      pdcpUploadErrMsg := "[WRN] Scan results upload to cloud is disabled."
      EnableCloudUpload := enable }
  else
    match inp.credsResult with
    | .error _ =>
      { writer := writer
        pdcpUploadErrMsg := "[WRN] To view results on Cloud Dashboard, Configure API key"
        EnableCloudUpload := enable }
    | .ok _ =>
      match inp.uploadWriterResult with
      | .error e =>
        { writer := writer
          pdcpUploadErrMsg := "[WRN] PDCP Auto-Save Failed: " ++ e
          EnableCloudUpload := enable }
      | .ok uw =>
        let uw := if inp.ScanID != "" then { uw with scanID := inp.ScanID } else uw
        { writer := .multi writer uw
          pdcpUploadErrMsg := ""
          EnableCloudUpload := enable }

/-! ## v2 ParseOptions headless concurrency adjustment (v2/internal/runner/options.go lines 57-62) -/

/-- The v2 options fields the headless auto-adjustment reads and writes. -/
structure OptionsV2 where
  Headless : Bool
  BulkSize : Nat
  TemplateThreads : Nat
  deriving DecidableEq, Repr

/-- The auto-adjustment step of `ParseOptions` (options.go lines 57-62): when
headless mode is on and both `BulkSize` and `TemplateThreads` still hold their
defaults (25 and 10), both are lowered to 2; otherwise nothing changes. -/
def parseOptionsHeadlessAdjust (options : OptionsV2) : OptionsV2 :=
  if options.Headless && options.BulkSize == 25 && options.TemplateThreads == 10 then
    { options with BulkSize := 2, TemplateThreads := 2 }
  else
    options

/-! ## displayExecutionInfo: signature statistics (runner.go lines 680-694) -/

/-- One past 2^64: Go `uint64` values live below this bound. -/
def U64 : Nat := 2 ^ 64

/-- Go `uint64` subtraction: `a - b` wrapping modulo 2^64. -/
def sub64 (a b : Nat) : Nat := (a + (U64 - b % U64)) % U64

/-- The `templates.Unsigned` signature-statistics key. -/
def Unsigned : String := "unsigned"

/-- The two suppression switches the unsigned-template warning consults:
`options.Silent` and `config.DefaultConfig.HideTemplateSigWarning`. -/
structure SigDisplayOptions where
  Silent : Bool
  HideTemplateSigWarning : Bool
  deriving DecidableEq, Repr

/-- The signature-statistics loop of `displayExecutionInfo` (runner.go lines
680-694). `sigStats` is `templates.SignatureStats` as (key, loaded count)
pairs; for the `Unsigned` key with a positive tally the displayed value is the
tally minus `SkippedUnsignedStats` and `CodeFlagWarningStats` (uint64
arithmetic); buckets left positive print an info line when signed and the WRN
line when unsigned and not suppressed. -/
def displaySignatureStats (sigStats : List (String × Nat))
    (skippedUnsigned codeFlagWarning : Nat) (opts : SigDisplayOptions) :
    List LogLine :=
  (sigStats.map fun kv =>
    let k := kv.1
    let value := kv.2
    let value :=
      if k == Unsigned && value > 0 then
        sub64 (sub64 value skippedUnsigned) codeFlagWarning
      else value
    if value > 0 then
      if k != Unsigned then
        [LogLine.info ("Executing " ++ toString value ++ " signed templates from " ++ k)]
      else if !opts.Silent && !opts.HideTemplateSigWarning then
        [LogLine.warn ("Loaded " ++ toString value ++
          " unsigned templates for scan. Use with caution.")]
      else []
    else []).flatten

/-! ## Resume configuration persistence (runner.go lines 269-283 and 701-714) -/

/-- A JSON document, the shape `json.MarshalIndent` / `json.Unmarshal` trade in. -/
inductive Json where
  | str (s : String)
  | num (n : Nat)
  | arr (elems : List Json)
  | obj (fields : List (String × Json))

/-- Per-template resume progress, from the spec's data model:
`{in_flight: set<target>, completed_count: u64}`. -/
structure ResumeInfo where
  inFlight : List String
  completedCount : Nat
  deriving DecidableEq, Repr

/-- `types.ResumeCfg` as the runner uses it: the `ResumeFrom` and `Current`
per-template maps, plus a marker recording that `Compile()` has run. -/
structure ResumeCfg where
  ResumeFrom : List (String × ResumeInfo)
  Current : List (String × ResumeInfo)
  compiled : Bool
  deriving DecidableEq, Repr

/-- JSON encoding of one `ResumeInfo`. -/
def encodeResumeInfo (i : ResumeInfo) : Json :=
  .obj [("in_flight", .arr (i.inFlight.map Json.str)),
        ("completed_count", .num i.completedCount)]

/-- Decode a JSON array of strings. -/
def decodeStringList : List Json → Option (List String)
  | [] => some []
  | .str s :: rest => (decodeStringList rest).map fun l => s :: l
  | _ => none

/-- Decode one `ResumeInfo`. -/
def decodeResumeInfo : Json → Option ResumeInfo
  | .obj [("in_flight", .arr xs), ("completed_count", .num n)] =>
    (decodeStringList xs).map fun l => { inFlight := l, completedCount := n }
  | _ => none

/-- JSON encoding of a per-template map. -/
def encodeResumeMap (m : List (String × ResumeInfo)) : Json :=
  .obj (m.map fun kv => (kv.1, encodeResumeInfo kv.2))

/-- Decode the fields of a per-template map object. -/
def decodeResumeMapFields : List (String × Json) → Option (List (String × ResumeInfo))
  | [] => some []
  | (k, v) :: rest =>
    match decodeResumeInfo v with
    | none => none
    | some i => (decodeResumeMapFields rest).map fun l => (k, i) :: l

/-- Decode a per-template map. -/
def decodeResumeMap : Json → Option (List (String × ResumeInfo))
  | .obj fields => decodeResumeMapFields fields
  | _ => none

/-- JSON encoding of the whole resume configuration: one JSON document. -/
def encodeResumeCfg (c : ResumeCfg) : Json :=
  .obj [("resumeFrom", encodeResumeMap c.ResumeFrom),
        ("current", encodeResumeMap c.Current)]

/-- `json.Unmarshal` into a `ResumeCfg`; `none` is an unmarshal error. -/
def decodeResumeCfg : Json → Option ResumeCfg
  | .obj [("resumeFrom", rf), ("current", cur)] =>
    match decodeResumeMap rf, decodeResumeMap cur with
    | some a, some b => some { ResumeFrom := a, Current := b, compiled := false }
    | _, _ => none
  | _ => none

/-- Modelled from the spec: `types.ResumeCfg.Clone` (its body is outside the
surveyed sources) produces a copy of the configuration for independent mutation. -/
def ResumeCfg.Clone (c : ResumeCfg) : ResumeCfg := c

/-- Modelled from the spec: `types.ResumeCfg.Compile` (its body is outside the
surveyed sources) post-processes a restored configuration before use; observable
here as the `compiled` marker. -/
def ResumeCfg.Compile (c : ResumeCfg) : ResumeCfg := { c with compiled := true }

/-- Modelled from the spec: `types.NewResumeCfg` (outside the surveyed sources)
is the empty resume configuration used when no resume file is loaded. -/
def NewResumeCfg : ResumeCfg := { ResumeFrom := [], Current := [], compiled := false }

/-- `Runner.SaveResumeConfig` (runner.go lines 701-714): clone the resume
configuration, set its `ResumeFrom` field to its `Current` field, and marshal
the clone as a single JSON document (the file content written). -/
def SaveResumeConfig (cfg : ResumeCfg) : Json :=
  let resumeCfgClone := cfg.Clone
  let resumeCfgClone := { resumeCfgClone with ResumeFrom := resumeCfgClone.Current }
  encodeResumeCfg resumeCfgClone

/-- Resume restore step of `Runner.New` (runner.go lines 269-283): when
`ShouldLoadResume()` holds, read the resume file (a read failure aborts `New`
with that error), unmarshal it (a failure aborts with an error), and compile
the result; otherwise start from `NewResumeCfg`. -/
def loadResumeCfgPhase (shouldLoadResume : Bool) (readResult : Except String Json) :
    Except String ResumeCfg :=
  if shouldLoadResume then
    match readResult with
    | .error e => .error e
    | .ok doc =>
      match decodeResumeCfg doc with
      | none => .error "unmarshal failed"
      | some cfg => .ok cfg.Compile
  else
    .ok NewResumeCfg

/-! ## Helper lemmas -/

theorem sub64_eq_sub (a b : Nat) (hb : b ≤ a) (ha : a < U64) : sub64 a b = a - b := by
  unfold sub64 U64 at *
  have hbU : b < 2 ^ 64 := lt_of_le_of_lt hb ha
  rw [Nat.mod_eq_of_lt hbU]
  have hsplit : a + (2 ^ 64 - b) = (a - b) + 2 ^ 64 := by omega
  rw [hsplit, Nat.add_mod_right, Nat.mod_eq_of_lt (by omega)]

theorem decodeStringList_encode (l : List String) :
    decodeStringList (l.map Json.str) = some l := by
  induction l with
  | nil => rfl
  | cons s rest ih => simp [decodeStringList, ih]

theorem decodeResumeInfo_encode (i : ResumeInfo) :
    decodeResumeInfo (encodeResumeInfo i) = some i := by
  simp [encodeResumeInfo, decodeResumeInfo, decodeStringList_encode]

theorem decodeResumeMapFields_encode (m : List (String × ResumeInfo)) :
    decodeResumeMapFields (m.map fun kv => (kv.1, encodeResumeInfo kv.2)) = some m := by
  induction m with
  | nil => rfl
  | cons kv rest ih => simp [decodeResumeMapFields, decodeResumeInfo_encode, ih]

theorem decodeResumeMap_encode (m : List (String × ResumeInfo)) :
    decodeResumeMap (encodeResumeMap m) = some m := by
  simp [encodeResumeMap, decodeResumeMap, decodeResumeMapFields_encode]

theorem decodeResumeCfg_encode (c : ResumeCfg) :
    decodeResumeCfg (encodeResumeCfg c) = some { c with compiled := false } := by
  simp [encodeResumeCfg, decodeResumeCfg, decodeResumeMap_encode]

/-! ## Claim theorems -/

/-- C1: an empty resulting template set is fatal only when the caller asked to
execute. `executeTemplatesInput` errors with "no templates provided for scan"
when templates and workflows together are empty; the SDK's
`ExecuteWithCallback` errors with `ErrNoTemplatesAvailable` when both store
lists are empty; and with `-validate` set, `RunEnumeration` returns before any
execution (no scan runs), so the empty set yields nil, not an error. -/
theorem C1_empty_set_fatal_only_on_execute
    (store : Store) (hasIP dc : Bool) (tc : Nat) (inp : RunEnumerationInput)
    (ht : store.templates = []) (hw : store.workflows = [])
    (hv : inp.validate = true) (hve : inp.validateTemplatesErr = none)
    (h1 : inp.stats.syntaxErrors = 0) (h2 : inp.stats.syntaxWarnings = 0)
    (h3 : inp.stats.runtimeWarnings = 0) :
    executeTemplatesInput store hasIP dc = .error "no templates provided for scan"
    ∧ ExecuteWithCallback store tc = .error "No templates available"
    ∧ (RunEnumeration inp).err = none
    ∧ (RunEnumeration inp).scanExecuted = false := by
  refine ⟨?_, ?_, ?_, ?_⟩ <;>
    simp [executeTemplatesInput, ExecuteWithCallback, RunEnumeration,
      ht, hw, hv, hve, h1, h2, h3]

theorem C1_empty_set_fatal_only_on_execute_witness :
    executeTemplatesInput { templates := [], workflows := [] } true false
        = .error "no templates provided for scan"
    ∧ ExecuteWithCallback { templates := [], workflows := [] } 1
        = .error "No templates available"
    ∧ (RunEnumeration
        { validate := true, validateTemplatesErr := none
          stats := { syntaxErrors := 0, syntaxWarnings := 0, runtimeWarnings := 0 }
          automaticScan := false, smartScanResult := .ok false
          store := { templates := [], workflows := [] }
          hasInputProvider := true, disableClustering := false
          scanFoundAny := false, interactshPresent := false
          interactshMatched := false }).err = none
    ∧ (RunEnumeration
        { validate := true, validateTemplatesErr := none
          stats := { syntaxErrors := 0, syntaxWarnings := 0, runtimeWarnings := 0 }
          automaticScan := false, smartScanResult := .ok false
          store := { templates := [], workflows := [] }
          hasInputProvider := true, disableClustering := false
          scanFoundAny := false, interactshPresent := false
          interactshMatched := false }).scanExecuted = false :=
  C1_empty_set_fatal_only_on_execute
    { templates := [], workflows := [] } true false 1
    { validate := true, validateTemplatesErr := none
      stats := { syntaxErrors := 0, syntaxWarnings := 0, runtimeWarnings := 0 }
      automaticScan := false, smartScanResult := .ok false
      store := { templates := [], workflows := [] }
      hasInputProvider := true, disableClustering := false
      scanFoundAny := false, interactshPresent := false
      interactshMatched := false }
    rfl rfl rfl rfl rfl rfl rfl

/-- C2: after the enumeration phase succeeds, a non-nil interactsh client is
flushed by `Close()`, and when `Close()` reports a late out-of-band match the
found-any result is forced to true via `CompareAndSwap(false, true)`, whatever
the synchronous phase found. -/
theorem C2_interactsh_flush_sets_found_any
    (inp : RunEnumerationInput) (b : Bool)
    (hnv : inp.validate = false)
    (hok : runStandardEnumeration inp = .ok b)
    (hip : inp.interactshPresent = true) :
    (RunEnumeration inp).interactshClosed = true
    ∧ (inp.interactshMatched = true → (RunEnumeration inp).foundAny = some true) := by
  constructor
  · simp [RunEnumeration, hnv, hok, hip]
  · intro hm
    simp only [RunEnumeration, hnv, hok, hip, hm]
    cases b <;> simp

theorem C2_interactsh_flush_sets_found_any_witness :
    (RunEnumeration
      { validate := false, validateTemplatesErr := none
        stats := { syntaxErrors := 0, syntaxWarnings := 0, runtimeWarnings := 0 }
        automaticScan := false, smartScanResult := .ok false
        store := { templates := [{ path := "t.yaml" }], workflows := [] }
        hasInputProvider := true, disableClustering := false
        scanFoundAny := false, interactshPresent := true
        interactshMatched := true }).interactshClosed = true
    ∧ (RunEnumeration
      { validate := false, validateTemplatesErr := none
        stats := { syntaxErrors := 0, syntaxWarnings := 0, runtimeWarnings := 0 }
        automaticScan := false, smartScanResult := .ok false
        store := { templates := [{ path := "t.yaml" }], workflows := [] }
        hasInputProvider := true, disableClustering := false
        scanFoundAny := false, interactshPresent := true
        interactshMatched := true }).foundAny = some true := by
  have h := C2_interactsh_flush_sets_found_any
    { validate := false, validateTemplatesErr := none
      stats := { syntaxErrors := 0, syntaxWarnings := 0, runtimeWarnings := 0 }
      automaticScan := false, smartScanResult := .ok false
      store := { templates := [{ path := "t.yaml" }], workflows := [] }
      hasInputProvider := true, disableClustering := false
      scanFoundAny := false, interactshPresent := true
      interactshMatched := true }
    false rfl (by simp [runStandardEnumeration, executeTemplatesInput]) rfl
  exact ⟨h.1, h.2 rfl⟩

/-- C3: `Engine.GetWorkPool` builds the pool bounds exactly from the two
cruise-control profiles (standard hosts/templates, headless hosts/templates),
and `SetExecuterOptions` installs that pool on the engine. -/
theorem C3_work_pool_from_profiles (e : Engine) (opts : ExecutorOptions) :
    (Engine.GetWorkPool opts).config.InputConcurrency
        = opts.CruiseControl.Standard.Concurrency.Hosts
    ∧ (Engine.GetWorkPool opts).config.TypeConcurrency
        = opts.CruiseControl.Standard.Concurrency.Templates
    ∧ (Engine.GetWorkPool opts).config.HeadlessInputConcurrency
        = opts.CruiseControl.Headless.Concurrency.Hosts
    ∧ (Engine.GetWorkPool opts).config.HeadlessTypeConcurrency
        = opts.CruiseControl.Headless.Concurrency.Templates
    ∧ (e.SetExecuterOptions opts).workPool = some (Engine.GetWorkPool opts) :=
  ⟨rfl, rfl, rfl, rfl, rfl⟩

/-- C4: with `-validate` set and `ValidateTemplates` itself succeeding,
`RunEnumeration` returns nil exactly when the three statistics counters are all
zero, returns the fixed template-validation-failure error when any is nonzero,
and in every case of the validate branch no scan is executed. -/
theorem C4_validate_exit_is_counter_driven (inp : RunEnumerationInput)
    (hv : inp.validate = true) (hve : inp.validateTemplatesErr = none) :
    ((RunEnumeration inp).err = none ↔
      (inp.stats.syntaxErrors = 0 ∧ inp.stats.syntaxWarnings = 0
        ∧ inp.stats.runtimeWarnings = 0))
    ∧ (¬(inp.stats.syntaxErrors = 0 ∧ inp.stats.syntaxWarnings = 0
        ∧ inp.stats.runtimeWarnings = 0) →
      (RunEnumeration inp).err
        = some "encountered errors while performing template validation")
    ∧ (RunEnumeration inp).scanExecuted = false := by
  simp only [RunEnumeration, hv, hve, if_true]
  by_cases hz : inp.stats.syntaxErrors = 0 ∧ inp.stats.syntaxWarnings = 0
      ∧ inp.stats.runtimeWarnings = 0
  · obtain ⟨z1, z2, z3⟩ := hz
    simp [z1, z2, z3]
  · have hb : (inp.stats.syntaxErrors == 0 && inp.stats.syntaxWarnings == 0
        && inp.stats.runtimeWarnings == 0) = false := by
      rcases Decidable.not_and_iff_or_not.mp hz with h | h
      · simp [h]
      · rcases Decidable.not_and_iff_or_not.mp h with h2 | h2 <;> simp [h2]
    simp [hb, hz]

theorem C4_validate_exit_is_counter_driven_witness :
    ((RunEnumeration
      { validate := true, validateTemplatesErr := none
        stats := { syntaxErrors := 1, syntaxWarnings := 0, runtimeWarnings := 0 }
        automaticScan := false, smartScanResult := .ok false
        store := { templates := [], workflows := [] }
        hasInputProvider := true, disableClustering := false
        scanFoundAny := false, interactshPresent := false
        interactshMatched := false }).err
        = some "encountered errors while performing template validation")
    ∧ (RunEnumeration
      { validate := true, validateTemplatesErr := none
        stats := { syntaxErrors := 1, syntaxWarnings := 0, runtimeWarnings := 0 }
        automaticScan := false, smartScanResult := .ok false
        store := { templates := [], workflows := [] }
        hasInputProvider := true, disableClustering := false
        scanFoundAny := false, interactshPresent := false
        interactshMatched := false }).scanExecuted = false := by
  have h := C4_validate_exit_is_counter_driven
    { validate := true, validateTemplatesErr := none
      stats := { syntaxErrors := 1, syntaxWarnings := 0, runtimeWarnings := 0 }
      automaticScan := false, smartScanResult := .ok false
      store := { templates := [], workflows := [] }
      hasInputProvider := true, disableClustering := false
      scanFoundAny := false, interactshPresent := false
      interactshMatched := false }
    rfl rfl
  exact ⟨h.2.1 (by simp), h.2.2⟩

/-- C5: a failure to create the interactsh client in `Runner.New` is non-fatal:
one error line is logged, the runner's interactsh field stays nil, and `New`
still returns the runner with nil error. -/
theorem C5_interactsh_failure_nonfatal (r : Runner) (e : String)
    (h : r.interactsh = none) :
    newInteractshPhase r (.error e) =
      (.ok { interactsh := none },
       [.err ("Could not create interactsh client: " ++ e)]) := by
  simp [newInteractshPhase]
  cases r
  simpa using h

theorem C5_interactsh_failure_nonfatal_witness :
    newInteractshPhase { interactsh := none } (.error "connection refused") =
      (.ok { interactsh := none },
       [.err ("Could not create interactsh client: " ++ "connection refused")]) :=
  C5_interactsh_failure_nonfatal { interactsh := none } "connection refused" rfl

/-- C6: in `displayExecutionInfo`, the Unsigned bucket's displayed count is the
raw unsigned tally minus the `SkippedUnsignedStats` and `CodeFlagWarningStats`
counters, and the WRN line is printed precisely when that adjusted count is
positive and neither `Silent` nor `HideTemplateSigWarning` suppresses it; a
signed bucket with a positive count always prints an info line. -/
theorem C6_unsigned_warning_exact
    (raw skipped codeflag : Nat) (opts : SigDisplayOptions) (k : String) (v : Nat)
    (hr : raw < U64) (hle : skipped + codeflag ≤ raw)
    (hk : (k == Unsigned) = false) (hv : 0 < v) :
    displaySignatureStats [(Unsigned, raw)] skipped codeflag opts =
      (if 0 < raw - skipped - codeflag ∧ opts.Silent = false
          ∧ opts.HideTemplateSigWarning = false
        then [LogLine.warn ("Loaded " ++ toString (raw - skipped - codeflag) ++
          " unsigned templates for scan. Use with caution.")]
        else [])
    ∧ displaySignatureStats [(k, v)] skipped codeflag opts =
      [LogLine.info ("Executing " ++ toString v ++ " signed templates from " ++ k)] := by
  constructor
  · by_cases hraw : 0 < raw
    · have h1 : sub64 raw skipped = raw - skipped :=
        sub64_eq_sub raw skipped (by omega) hr
      have h2 : sub64 (raw - skipped) codeflag = raw - skipped - codeflag :=
        sub64_eq_sub (raw - skipped) codeflag (by omega) (by omega)
      obtain ⟨s, hd⟩ := opts
      by_cases hdpos : 0 < raw - skipped - codeflag <;>
        cases s <;> cases hd <;>
          simp [displaySignatureStats, hraw, h1, h2, hdpos]
    · have hraw0 : raw = 0 := by omega
      simp [displaySignatureStats, hraw0]
  · have hk2 : ¬(k = Unsigned) := by simpa using hk
    simp [displaySignatureStats, hk2, hv]

theorem C6_unsigned_warning_exact_witness :
    displaySignatureStats [(Unsigned, 5)] 1 1
        { Silent := false, HideTemplateSigWarning := false } =
      [LogLine.warn ("Loaded " ++ toString 3 ++
        " unsigned templates for scan. Use with caution.")]
    ∧ displaySignatureStats [("verified", 3)] 1 1
        { Silent := false, HideTemplateSigWarning := false } =
      [LogLine.info ("Executing " ++ toString 3 ++ " signed templates from " ++ "verified")] := by
  have h := C6_unsigned_warning_exact 5 1 1
    { Silent := false, HideTemplateSigWarning := false } "verified" 3
    (by norm_num [U64]) (by norm_num) (by decide) (by norm_num)
  refine ⟨?_, h.2⟩
  rw [h.1]
  norm_num

/-- C7: resume state round-trips through a single JSON document.
`SaveResumeConfig` clones the configuration, sets `ResumeFrom` to `Current`,
and marshals the clone; when `ShouldLoadResume()` holds, `Runner.New`
unmarshals that document back (recovering exactly the saved fields) and
compiles it, while a read failure or an unmarshal failure aborts `New` with an
error. -/
theorem C7_resume_roundtrip (cfg : ResumeCfg) (e : String) (doc : Json)
    (hbad : decodeResumeCfg doc = none) :
    SaveResumeConfig cfg = encodeResumeCfg { cfg with ResumeFrom := cfg.Current }
    ∧ loadResumeCfgPhase true (.ok (SaveResumeConfig cfg)) =
        .ok { ResumeFrom := cfg.Current, Current := cfg.Current, compiled := true }
    ∧ loadResumeCfgPhase true (.error e) = .error e
    ∧ loadResumeCfgPhase true (.ok doc) = .error "unmarshal failed" := by
  refine ⟨rfl, ?_, rfl, ?_⟩
  · simp [loadResumeCfgPhase, SaveResumeConfig, ResumeCfg.Clone,
      decodeResumeCfg_encode, ResumeCfg.Compile]
  · simp [loadResumeCfgPhase, hbad]

theorem C7_resume_roundtrip_witness :
    SaveResumeConfig
        { ResumeFrom := [], Current := [("t1", { inFlight := ["a"], completedCount := 2 })]
          compiled := false }
      = encodeResumeCfg
        { ResumeFrom := [("t1", { inFlight := ["a"], completedCount := 2 })]
          Current := [("t1", { inFlight := ["a"], completedCount := 2 })]
          compiled := false }
    ∧ loadResumeCfgPhase true (.ok (SaveResumeConfig
        { ResumeFrom := [], Current := [("t1", { inFlight := ["a"], completedCount := 2 })]
          compiled := false }))
      = .ok { ResumeFrom := [("t1", { inFlight := ["a"], completedCount := 2 })]
              Current := [("t1", { inFlight := ["a"], completedCount := 2 })]
              compiled := true }
    ∧ loadResumeCfgPhase true (.error "read error") = .error "read error"
    ∧ loadResumeCfgPhase true (.ok (Json.num 0)) = .error "unmarshal failed" :=
  C7_resume_roundtrip
    { ResumeFrom := [], Current := [("t1", { inFlight := ["a"], completedCount := 2 })]
      compiled := false }
    "read error" (Json.num 0) rfl

/-- C8: the SDK's `ExecuteWithCallback` never executes workflows: whenever its
emptiness and target checks pass, the engine receives exactly
`store.Templates()` with clustering enabled (`DisableClustering = false`), so a
workflows-only store yields a nil return with an empty execution list. -/
theorem C8_sdk_ignores_workflows (store : Store) (tc : Nat)
    (hne : ¬(store.templates = [] ∧ store.workflows = [])) (htc : tc ≠ 0) :
    ExecuteWithCallback store tc =
      .ok { finalTemplates := store.templates, disableClustering := false } := by
  by_cases ht : store.templates = []
  · have hw : store.workflows ≠ [] := fun hw => hne ⟨ht, hw⟩
    simp [ExecuteWithCallback, ht, List.length_eq_zero, hw, htc]
  · simp [ExecuteWithCallback, List.length_eq_zero, ht, htc]

theorem C8_sdk_ignores_workflows_witness :
    ExecuteWithCallback
        { templates := [], workflows := [{ path := "workflow.yaml" }] } 1 =
      .ok { finalTemplates := [], disableClustering := false } :=
  C8_sdk_ignores_workflows
    { templates := [], workflows := [{ path := "workflow.yaml" }] } 1
    (by simp) (by decide)

theorem append_left_ne_empty (a b : String) (ha : a.length ≠ 0) : a ++ b ≠ "" := by
  intro h
  have h2 := congrArg String.length h
  simp [String.length_append] at h2
  exact ha h2.1

/-- C9: `setupPDCPUpload` treats a non-empty `ScanID` as implicit consent by
turning on `EnableCloudUpload`; and whenever upload is disabled, credentials
cannot be obtained, or the upload writer cannot be created, the original output
writer is returned unchanged with only a warning message recorded, so result
writing is never blocked by the cloud path. -/
theorem C9_pdcp_never_blocks_output (inp : PDCPInput) (w : OutWriter) :
    (inp.ScanID ≠ "" → (setupPDCPUpload inp w).EnableCloudUpload = true)
    ∧ (((inp.ScanID = "" ∧ inp.EnableCloudUploadOpt = false
          ∧ inp.EnableCloudUploadGlobal = false)
        ∨ (∃ e, inp.credsResult = .error e)
        ∨ (∃ e, inp.uploadWriterResult = .error e)) →
        (setupPDCPUpload inp w).writer = w
        ∧ (setupPDCPUpload inp w).pdcpUploadErrMsg ≠ "") := by
  obtain ⟨sid, opt, glob, creds, uwr⟩ := inp
  by_cases hsid : sid = ""
  · subst hsid
    constructor
    · intro h; exact absurd rfl h
    · rintro (⟨_, hopt, hglob⟩ | ⟨e, hcr⟩ | ⟨e, huw⟩)
      · subst hopt; subst hglob
        simp [setupPDCPUpload]
      · simp only at hcr
        subst hcr
        cases opt <;> cases glob <;> cases uwr <;>
          simp [setupPDCPUpload]
      · simp only at huw
        subst huw
        cases opt <;> cases glob <;> cases creds <;>
          simp [setupPDCPUpload] <;>
          first
            | decide
            | exact append_left_ne_empty "[WRN] PDCP Auto-Save Failed: " e (by decide)
  · have hb : (sid != "") = true := by simpa using hsid
    constructor
    · intro _
      cases creds with
      | error e => simp [setupPDCPUpload, hb]
      | ok c =>
        cases uwr <;> simp [setupPDCPUpload, hb]
    · rintro (⟨habs, _, _⟩ | ⟨e, hcr⟩ | ⟨e, huw⟩)
      · exact absurd habs hsid
      · simp only at hcr
        subst hcr
        simp [setupPDCPUpload, hb]
      · simp only at huw
        subst huw
        cases creds with
        | error e2 =>
          simp [setupPDCPUpload, hb]
        | ok c =>
          simp [setupPDCPUpload, hb]
          exact append_left_ne_empty "[WRN] PDCP Auto-Save Failed: " e (by decide)

theorem C9_pdcp_never_blocks_output_witness :
    (setupPDCPUpload
        { ScanID := "scan123", EnableCloudUploadOpt := false
          EnableCloudUploadGlobal := false
          credsResult := .error "no creds", uploadWriterResult := .error "down" }
        .base).EnableCloudUpload = true
    ∧ ((setupPDCPUpload
        { ScanID := "scan123", EnableCloudUploadOpt := false
          EnableCloudUploadGlobal := false
          credsResult := .error "no creds", uploadWriterResult := .error "down" }
        .base).writer = .base
      ∧ (setupPDCPUpload
        { ScanID := "scan123", EnableCloudUploadOpt := false
          EnableCloudUploadGlobal := false
          credsResult := .error "no creds", uploadWriterResult := .error "down" }
        .base).pdcpUploadErrMsg ≠ "") :=
  ⟨(C9_pdcp_never_blocks_output
      { ScanID := "scan123", EnableCloudUploadOpt := false
        EnableCloudUploadGlobal := false
        credsResult := .error "no creds", uploadWriterResult := .error "down" }
      .base).1 (by decide),
   (C9_pdcp_never_blocks_output
      { ScanID := "scan123", EnableCloudUploadOpt := false
        EnableCloudUploadGlobal := false
        credsResult := .error "no creds", uploadWriterResult := .error "down" }
      .base).2 (Or.inr (Or.inl ⟨"no creds", rfl⟩))⟩

/-- C10: the v2 `ParseOptions` headless auto-adjustment lowers concurrency only
from untouched defaults: with headless set and `BulkSize = 25`,
`TemplateThreads = 10`, both become 2; when either field differs from its
default (or headless is off) the options pass through unchanged. -/
theorem C10_headless_adjust_only_defaults (o : OptionsV2) :
    (o.Headless = true → o.BulkSize = 25 → o.TemplateThreads = 10 →
      parseOptionsHeadlessAdjust o = { o with BulkSize := 2, TemplateThreads := 2 })
    ∧ ((¬(o.BulkSize = 25) ∨ ¬(o.TemplateThreads = 10)) →
      parseOptionsHeadlessAdjust o = o) := by
  constructor
  · intro hh hb ht
    simp [parseOptionsHeadlessAdjust, hh, hb, ht]
  · rintro (h | h) <;> simp [parseOptionsHeadlessAdjust, h]

theorem C10_headless_adjust_only_defaults_witness :
    parseOptionsHeadlessAdjust { Headless := true, BulkSize := 25, TemplateThreads := 10 }
        = { Headless := true, BulkSize := 2, TemplateThreads := 2 }
    ∧ parseOptionsHeadlessAdjust { Headless := true, BulkSize := 30, TemplateThreads := 10 }
        = { Headless := true, BulkSize := 30, TemplateThreads := 10 } :=
  ⟨(C10_headless_adjust_only_defaults
      { Headless := true, BulkSize := 25, TemplateThreads := 10 }).1 rfl rfl rfl,
   (C10_headless_adjust_only_defaults
      { Headless := true, BulkSize := 30, TemplateThreads := 10 }).2
      (Or.inl (by decide))⟩

end Nuclei
